import Mathlib

/-!
Verification of `src/v0/src/app/spotify/generate_aruco.py`.

The script holds a static table `ARUCO_DICT` from dictionary-name strings to
OpenCV dictionary identifiers, one function `generate_aruco_marker` that
validates the name, resolves it, calls the external renderer and writes the
image, and a `__main__` block that parses three positional arguments and calls
the function.

Embedding: the observable world is a record `PState` holding the lookup table
(threaded through state so that frame properties are statable), the list of
printed messages, the list of external-renderer invocations, the list of
paths passed to `cv2.imwrite`, and the list of files present on disk.
External calls are modelled by their observable traces; `cv2.imwrite` takes a
success flag `writeOk` from the environment and returns a boolean that the
script discards, exactly as the source does.
-/

namespace GenerateAruco

-- Constants of the external library cv2.aruco: the predefined-dictionary
-- identifiers, in their OpenCV enumeration order.
namespace cv2

def DICT_4X4_50 : Nat := 0

def DICT_4X4_100 : Nat := 1

def DICT_4X4_250 : Nat := 2

def DICT_4X4_1000 : Nat := 3

def DICT_5X5_50 : Nat := 4

def DICT_5X5_100 : Nat := 5

def DICT_5X5_250 : Nat := 6

def DICT_5X5_1000 : Nat := 7

def DICT_6X6_50 : Nat := 8

def DICT_6X6_100 : Nat := 9

def DICT_6X6_250 : Nat := 10

def DICT_6X6_1000 : Nat := 11

def DICT_7X7_50 : Nat := 12

def DICT_7X7_100 : Nat := 13

def DICT_7X7_250 : Nat := 14

def DICT_7X7_1000 : Nat := 15

def DICT_ARUCO_ORIGINAL : Nat := 16

end cv2

/-- Python values stored in the table: an int constant (`some n`) or the
Python value `None` (`none`).  Lines 17-35 of the source. -/
def ARUCO_DICT : List (String × Option Nat) := [
  ("DICT_4X4_50", some cv2.DICT_4X4_50),
  ("DICT_4X4_100", some cv2.DICT_4X4_100),
  ("DICT_4X4_250", some cv2.DICT_4X4_250),
  ("DICT_4X4_1000", some cv2.DICT_4X4_1000),
  ("DICT_5X5_50", some cv2.DICT_5X5_50),
  ("DICT_5X5_100", some cv2.DICT_5X5_100),
  ("DICT_5X5_250", some cv2.DICT_5X5_250),
  ("DICT_5X5_1000", some cv2.DICT_5X5_1000),
  ("DICT_6X6_50", some cv2.DICT_6X6_50),
  ("DICT_6X6_100", some cv2.DICT_6X6_100),
  ("DICT_6X6_250", some cv2.DICT_6X6_250),
  ("DICT_6X6_1000", some cv2.DICT_6X6_1000),
  ("DICT_7X7_50", some cv2.DICT_7X7_50),
  ("DICT_7X7_100", some cv2.DICT_7X7_100),
  ("DICT_7X7_250", some cv2.DICT_7X7_250),
  ("DICT_7X7_1000", some cv2.DICT_7X7_1000),
  ("DICT_ARUCO_ORIGINAL", some cv2.DICT_ARUCO_ORIGINAL)]

/-- Python `d.get(k, default)`: the value stored under `k` when the key is
present (that value may itself be `None`), otherwise the default. -/
def dict_get (d : List (String × Option Nat)) (k : String) (default : Option Nat) :
    Option Nat :=
  match d.find? (fun p => p.1 == k) with
  | some p => p.2
  | none => default

/-- Observable program state: the global lookup table, the messages printed so
far, the invocations of the external renderer
`cv2.aruco.generateImageMarker` as (dictionary id, marker id, size) triples,
the paths passed to `cv2.imwrite`, and the files present on disk. -/
structure PState where
  aruco_dict : List (String × Option Nat)
  printed : List String
  renders : List (Nat × Int × Int)
  writeCalls : List String
  files : List String
deriving Repr, DecidableEq

/-- Message of line 44 of the source. -/
def msg_unsupported (aruco_dict_name : String) : String :=
  s!"[INFO] Le dictionnaire ArUco \x27{aruco_dict_name}\x27 n\x27est pas pris en charge."

/-- Message of line 51 of the source. -/
def msg_generating (aruco_dict_name : String) (marker_id : Int) : String :=
  s!"[INFO] Génération du marqueur ArUco de type \x27{aruco_dict_name}\x27 avec l\x27ID \x27{marker_id}\x27"

/-- Line 60 of the source: the automatically derived output path. -/
def output_filename (aruco_dict_name : String) (marker_id : Int) : String :=
  s!"./images/{aruco_dict_name}_id{marker_id}.png"

/-- Message of line 64 of the source. -/
def msg_saved (fn : String) : String :=
  s!"[INFO] Marqueur ArUco généré et sauvegardé sous le nom \x27{fn}\x27."

/-- External call `cv2.imwrite(path, img)`: records the invocation, persists
the file when the environment flag `writeOk` is true, and returns a success
boolean (which the script will discard). -/
def imwrite (writeOk : Bool) (path : String) (s : PState) : PState × Bool :=
  if writeOk then
    ({ s with writeCalls := s.writeCalls ++ [path], files := s.files ++ [path] }, true)
  else
    ({ s with writeCalls := s.writeCalls ++ [path] }, false)

/-- Lines 38-64 of the source: guard on `ARUCO_DICT.get(name, None) is None`,
then print, render, compute the filename, write (return value ignored), and
print the confirmation. -/
def generate_aruco_marker (writeOk : Bool) (aruco_dict_name : String)
    (marker_id marker_size : Int) (s : PState) : PState :=
  match dict_get s.aruco_dict aruco_dict_name none with
  | none =>
      { s with printed := s.printed ++ [msg_unsupported aruco_dict_name] }
  | some code =>
      let s1 : PState :=
        { s with printed := s.printed ++ [msg_generating aruco_dict_name marker_id] }
      let s2 : PState :=
        { s1 with renders := s1.renders ++ [(code, marker_id, marker_size)] }
      let fn : String := output_filename aruco_dict_name marker_id
      let res : PState × Bool := imwrite writeOk fn s2
      { res.1 with printed := res.1.printed ++ [msg_saved fn] }

/-- The state at interpreter start: the table as written, nothing printed,
no external calls, no files. -/
def initState : PState :=
  { aruco_dict := ARUCO_DICT, printed := [], renders := [], writeCalls := [], files := [] }

/-- Lines 72-81 of the source: after `argparse` has produced the three
positional arguments, the block calls `generate_aruco_marker` and the process
ends; the second component is the process exit code. -/
def mainRun (writeOk : Bool) (dictionary : String) (id size : Int) : PState × Nat :=
  (generate_aruco_marker writeOk dictionary id size initState, 0)

/-- The 17 names the spec describes: DICT_NXN_M for N in 4..7 and
M in 50, 100, 250, 1000, plus the legacy dictionary.  This definition follows
the words of the spec, to be compared with the keys of `ARUCO_DICT`. -/
def spec_dictionary_names : List String :=
  (List.flatMap [4, 5, 6, 7] fun n =>
    [50, 100, 250, 1000].map fun m => s!"DICT_{n}X{n}_{m}") ++ ["DICT_ARUCO_ORIGINAL"]

/-- Helper: when every value stored in the table is a genuine constant (never
the Python value None), the `.get` guard succeeds exactly on the keys. -/
theorem dict_get_isSome_eq_contains (d : List (String × Option Nat))
    (hall : ∀ p ∈ d, p.2.isSome = true) (k : String) :
    (dict_get d k none).isSome = (d.map Prod.fst).contains k := by
  induction d with
  | nil => rfl
  | cons p rest ih =>
    have hp : p.2.isSome = true := hall p (List.mem_cons_self p rest)
    have hrest : ∀ q ∈ rest, q.2.isSome = true :=
      fun q hq => hall q (List.mem_cons_of_mem p hq)
    by_cases h : p.1 = k
    · simp [dict_get, List.find?, h, hp]
    · have hbeq : (p.1 == k) = false := by simp [h]
      have hbeq2 : (k == p.1) = false := by
        cases hk : k == p.1
        · rfl
        · exact absurd (Eq.symm (eq_of_beq hk)) h
      simp only [dict_get, List.find?, hbeq, List.map_cons, List.contains_cons, hbeq2,
        Bool.false_or]
      exact ih hrest

/-- C1: for every dictionary name in the supported set and every integer id
and size, `generate_aruco_marker` invokes the external renderer and writes the
resulting image to `./images/{name}_id{id}.png`, printing informational
messages along the way. -/
theorem generate_supported_renders_and_writes
    (aruco_dict_name : String) (code : Nat) (marker_id marker_size : Int) (s : PState)
    (hdict : s.aruco_dict = ARUCO_DICT)
    (hname : dict_get ARUCO_DICT aruco_dict_name none = some code) :
    generate_aruco_marker true aruco_dict_name marker_id marker_size s =
      { s with
        printed := s.printed ++
          [msg_generating aruco_dict_name marker_id,
           msg_saved (output_filename aruco_dict_name marker_id)],
        renders := s.renders ++ [(code, marker_id, marker_size)],
        writeCalls := s.writeCalls ++ [output_filename aruco_dict_name marker_id],
        files := s.files ++ [output_filename aruco_dict_name marker_id] } := by
  simp [generate_aruco_marker, hdict, hname, imwrite]

/-- Witness for C1: the call with `("DICT_6X6_100", 5, 200)` writes the file
`./images/DICT_6X6_100_id5.png`. -/
theorem generate_supported_renders_and_writes_witness :
    dict_get ARUCO_DICT "DICT_6X6_100" none = some 9 ∧
    initState.aruco_dict = ARUCO_DICT ∧
    (generate_aruco_marker true "DICT_6X6_100" 5 200 initState).files =
      ["./images/DICT_6X6_100_id5.png"] :=
  ⟨by decide, rfl, by
    rw [generate_supported_renders_and_writes "DICT_6X6_100" 9 5 200 initState rfl
      (by decide)]
    rfl⟩

/-- C2: for every dictionary name that the guard rejects, the call only prints
the informational message: the table, the renderer trace, the write-call trace
and the files on disk are all left exactly as they were, and the function
returns normally. -/
theorem generate_unsupported_only_prints
    (writeOk : Bool) (aruco_dict_name : String) (marker_id marker_size : Int) (s : PState)
    (hname : dict_get s.aruco_dict aruco_dict_name none = none) :
    generate_aruco_marker writeOk aruco_dict_name marker_id marker_size s =
      { s with printed := s.printed ++ [msg_unsupported aruco_dict_name] } := by
  simp [generate_aruco_marker, hname]

/-- Witness for C2: the call with `("DICT_9X9_1", 0, 100)` from the initial
state prints the message and writes nothing. -/
theorem generate_unsupported_only_prints_witness :
    dict_get initState.aruco_dict "DICT_9X9_1" none = none ∧
    generate_aruco_marker true "DICT_9X9_1" 0 100 initState =
      { initState with printed := [msg_unsupported "DICT_9X9_1"] } :=
  ⟨by decide, by
    rw [generate_unsupported_only_prints true "DICT_9X9_1" 0 100 initState (by decide)]
    rfl⟩

/-- C3: for every invocation with three positional arguments, the process exit
code is 0 regardless of validation outcome. -/
theorem mainRun_exit_code_zero (writeOk : Bool) (dictionary : String) (id size : Int) :
    (mainRun writeOk dictionary id size).2 = 0 := rfl

/-- C4: the keys of `ARUCO_DICT` are exactly the 17 names the spec lists, and
a name passes the guard if and only if it belongs to that fixed set. -/
theorem aruco_dict_keys_exactly_spec :
    ARUCO_DICT.map Prod.fst = spec_dictionary_names ∧
    ∀ name : String,
      (dict_get ARUCO_DICT name none).isSome = spec_dictionary_names.contains name := by
  refine ⟨by decide, fun name => ?_⟩
  have h := dict_get_isSome_eq_contains ARUCO_DICT (by decide) name
  have hk : ARUCO_DICT.map Prod.fst = spec_dictionary_names := by decide
  rw [h, hk]

/-- C5: for every supported dictionary name, the id and size arguments reach
the external renderer exactly as received: no range check or guard is applied
to them. -/
theorem generate_forwards_id_size_unvalidated
    (writeOk : Bool) (aruco_dict_name : String) (code : Nat)
    (marker_id marker_size : Int) (s : PState)
    (hname : dict_get s.aruco_dict aruco_dict_name none = some code) :
    (generate_aruco_marker writeOk aruco_dict_name marker_id marker_size s).renders =
      s.renders ++ [(code, marker_id, marker_size)] := by
  cases writeOk <;> simp [generate_aruco_marker, hname, imwrite]

/-- Witness for C5: even a negative id and a negative size are forwarded
unchanged to the renderer. -/
theorem generate_forwards_id_size_unvalidated_witness :
    dict_get initState.aruco_dict "DICT_4X4_50" none = some 0 ∧
    (generate_aruco_marker true "DICT_4X4_50" (-7) (-1) initState).renders =
      [(0, -7, -1)] :=
  ⟨by decide, by
    rw [generate_forwards_id_size_unvalidated true "DICT_4X4_50" 0 (-7) (-1) initState
      (by decide)]
    rfl⟩

/-- C6: validation precedes rendering: when the dictionary name fails the
guard, neither the external renderer nor `cv2.imwrite` is ever invoked and no
file appears. -/
theorem generate_no_render_no_write_when_unsupported
    (writeOk : Bool) (aruco_dict_name : String) (marker_id marker_size : Int) (s : PState)
    (hname : dict_get s.aruco_dict aruco_dict_name none = none) :
    (generate_aruco_marker writeOk aruco_dict_name marker_id marker_size s).renders =
        s.renders ∧
    (generate_aruco_marker writeOk aruco_dict_name marker_id marker_size s).writeCalls =
        s.writeCalls ∧
    (generate_aruco_marker writeOk aruco_dict_name marker_id marker_size s).files =
        s.files := by
  refine ⟨?_, ?_, ?_⟩ <;> simp [generate_aruco_marker, hname]

/-- Witness for C6: a lower-case name fails the guard, so the renderer and
writer traces stay empty. -/
theorem generate_no_render_no_write_when_unsupported_witness :
    dict_get initState.aruco_dict "dict_6x6_100" none = none ∧
    (generate_aruco_marker true "dict_6x6_100" 3 50 initState).renders = [] ∧
    (generate_aruco_marker true "dict_6x6_100" 3 50 initState).writeCalls = [] ∧
    (generate_aruco_marker true "dict_6x6_100" 3 50 initState).files = [] :=
  ⟨by decide,
    generate_no_render_no_write_when_unsupported true "dict_6x6_100" 3 50 initState
      (by decide)⟩

/-- C7: the path handed to `cv2.imwrite` is a function of the dictionary name
and the marker id alone: the right-hand side below mentions neither the size
argument, nor the environment flag, nor any other state component. -/
theorem write_path_depends_only_on_name_and_id
    (writeOk : Bool) (aruco_dict_name : String) (marker_id marker_size : Int) (s : PState) :
    (generate_aruco_marker writeOk aruco_dict_name marker_id marker_size s).writeCalls =
      s.writeCalls ++
        (if (dict_get s.aruco_dict aruco_dict_name none).isSome then
          [output_filename aruco_dict_name marker_id] else []) ∧
    output_filename aruco_dict_name marker_id =
      s!"./images/{aruco_dict_name}_id{marker_id}.png" := by
  refine ⟨?_, rfl⟩
  cases h : dict_get s.aruco_dict aruco_dict_name none <;>
    cases writeOk <;> simp [generate_aruco_marker, h, imwrite]

/-- C8: the boolean returned by `cv2.imwrite` is discarded: when the write
fails (environment flag false), the function still prints the saved
confirmation and returns normally, and the files on disk are unchanged, so
the success message does not imply the file exists. -/
theorem generate_ignores_imwrite_result
    (aruco_dict_name : String) (code : Nat) (marker_id marker_size : Int) (s : PState)
    (hname : dict_get s.aruco_dict aruco_dict_name none = some code) :
    generate_aruco_marker false aruco_dict_name marker_id marker_size s =
      { s with
        printed := s.printed ++
          [msg_generating aruco_dict_name marker_id,
           msg_saved (output_filename aruco_dict_name marker_id)],
        renders := s.renders ++ [(code, marker_id, marker_size)],
        writeCalls := s.writeCalls ++ [output_filename aruco_dict_name marker_id] } := by
  simp [generate_aruco_marker, hname, imwrite]

/-- Witness for C8: with a failing write, the saved message is printed while
no file exists. -/
theorem generate_ignores_imwrite_result_witness :
    dict_get initState.aruco_dict "DICT_4X4_1000" none = some 3 ∧
    (generate_aruco_marker false "DICT_4X4_1000" 2 300 initState).printed =
      [msg_generating "DICT_4X4_1000" 2, msg_saved (output_filename "DICT_4X4_1000" 2)] ∧
    (generate_aruco_marker false "DICT_4X4_1000" 2 300 initState).files = [] :=
  ⟨by decide, by
    rw [generate_ignores_imwrite_result "DICT_4X4_1000" 3 2 300 initState (by decide)]
    rfl,
  by
    rw [generate_ignores_imwrite_result "DICT_4X4_1000" 3 2 300 initState (by decide)]
    rfl⟩

/-- C9: every call leaves the lookup table untouched, and its whole effect on
the state is appending to the print, render, write-call and file traces:
nothing else in the state changes. -/
theorem generate_frame_only_observable_effects
    (writeOk : Bool) (aruco_dict_name : String) (marker_id marker_size : Int) (s : PState) :
    (generate_aruco_marker writeOk aruco_dict_name marker_id marker_size s).aruco_dict =
      s.aruco_dict ∧
    ∃ ps rs ws fs,
      generate_aruco_marker writeOk aruco_dict_name marker_id marker_size s =
        { s with
          printed := s.printed ++ ps,
          renders := s.renders ++ rs,
          writeCalls := s.writeCalls ++ ws,
          files := s.files ++ fs } := by
  constructor
  · cases h : dict_get s.aruco_dict aruco_dict_name none <;>
      cases writeOk <;> simp [generate_aruco_marker, h, imwrite]
  · cases h : dict_get s.aruco_dict aruco_dict_name none with
    | none =>
        exact ⟨[msg_unsupported aruco_dict_name], [], [], [],
          by simp [generate_aruco_marker, h]⟩
    | some code =>
        cases writeOk with
        | false =>
            exact ⟨[msg_generating aruco_dict_name marker_id,
                msg_saved (output_filename aruco_dict_name marker_id)],
              [(code, marker_id, marker_size)],
              [output_filename aruco_dict_name marker_id], [],
              by simp [generate_aruco_marker, h, imwrite]⟩
        | true =>
            exact ⟨[msg_generating aruco_dict_name marker_id,
                msg_saved (output_filename aruco_dict_name marker_id)],
              [(code, marker_id, marker_size)],
              [output_filename aruco_dict_name marker_id],
              [output_filename aruco_dict_name marker_id],
              by simp [generate_aruco_marker, h, imwrite]⟩

/-- C10: since every value stored in `ARUCO_DICT` is a constant and never the
Python value None, the guard `ARUCO_DICT.get(name, None) is None` rejects a
name exactly when it is not a key; the comparison is exact and
case-sensitive, so the lower-case variant is rejected while the exact name is
accepted. -/
theorem guard_rejects_iff_not_key :
    (∀ name : String,
      (dict_get ARUCO_DICT name none).isNone = !(ARUCO_DICT.map Prod.fst).contains name) ∧
    dict_get ARUCO_DICT "dict_6x6_100" none = none ∧
    dict_get ARUCO_DICT "DICT_6X6_100" none = some cv2.DICT_6X6_100 := by
  refine ⟨fun name => ?_, by decide, by decide⟩
  have h := dict_get_isSome_eq_contains ARUCO_DICT (by decide) name
  rw [← h]
  cases dict_get ARUCO_DICT name none <;> rfl

end GenerateAruco
